import Mathlib

/-
Verification development for rcwd (src/main.rs).

The program has two parts:
 * `get_proc_and_focused_window_pid`: queries the X server for the focused
   window and its `_NET_WM_PID`, checking `WM_STATE` on the way;
 * `get_child_cwd`: recursively walks /proc from a root pid and picks a
   working directory, classified `Priority`/`Regular` against a caller
   supplied list of priority commands.

The embedding below translates that Rust code into total Lean functions.
External effects are passed in explicitly:
 * the X server is an `X11Env` record holding the outcome of each protocol
   round trip the code performs;
 * /proc is a function `Nat → ProcEntry` giving, per pid, the outcome of the
   three reads the code performs (`exe`, `cwd`, `task/{pid}/children`);
 * filesystem existence (`Path::exists`) is a function `String → Bool`;
 * `cfg!(debug_assertions)` is an explicit `Bool` parameter.

Abnormal termination (`assert_eq!`, `panic!`, `unwrap` on malformed input)
is modelled by the distinguished result `RunResult.panic`, kept apart from
`RunResult.err` which models `Result::Err`.  The Rust recursion in
`get_child_cwd` has no depth bound; to make the Lean function total it takes
a fuel argument, and `RunResult.outOfFuel` marks executions that would need
a deeper call stack than the supplied fuel.  A run of the source program
diverges on an input exactly when every fuel value yields `outOfFuel`.
-/

namespace Rcwd

/-- Outcome of running a piece of the program: a normal value, a `Result::Err`
value, an abnormal termination (panic/assert), or fuel exhaustion of the
embedding (the source recursion would need a deeper stack). -/
inductive RunResult (α : Type) where
  | ok (val : α)
  | err (msg : String)
  | panic (msg : String)
  | outOfFuel
deriving DecidableEq, Repr

/-- True for outcomes the Rust caller can observe as a `Result` (`Ok`/`Err`);
false for panics and for fuel exhaustion. -/
def RunResult.settled {α : Type} : RunResult α → Bool
  | .ok _ => true
  | .err _ => true
  | .panic _ => false
  | .outOfFuel => false

/-- An X property reply: the declared value count (`value_len()`) and the raw
byte buffer (`value()`).  The two are independent fields, as on the wire. -/
structure PropReply where
  value_len : Nat
  bytes : List Nat
deriving DecidableEq, Repr

/-- `raw.read_u32::<LittleEndian>()` on the first four bytes of a buffer.
Only reached after the code asserted the buffer holds exactly 4 bytes. -/
def readU32LE (bs : List Nat) : Nat :=
  match bs with
  | b0 :: b1 :: b2 :: b3 :: _ =>
      b0 % 256 + (b1 % 256) * 256 + (b2 % 256) * 65536 + (b3 % 256) * 16777216
  | _ => 0

/-- One byte of a UTF-8 continuation (`10xxxxxx`). -/
def isUtf8Cont (b : Nat) : Bool := 128 ≤ b && b < 192

/-- UTF-8 decoding of a byte list, fuelled by the list length (each step
consumes at least one byte and one unit of fuel, so fuel = length suffices).
Mirrors the validation done by Rust's `String::from_utf8`: rejects stray
continuation bytes, overlong forms, surrogates and code points above
`0x10FFFF`. -/
def utf8DecodeFuel : Nat → List Nat → Option (List Char)
  | _, [] => some []
  | 0, _ :: _ => none
  | fuel + 1, b :: rest =>
    if b < 128 then
      (utf8DecodeFuel fuel rest).map (fun cs => Char.ofNat b :: cs)
    else if b < 194 then none
    else if b < 224 then
      match rest with
      | b1 :: rest1 =>
        if isUtf8Cont b1 then
          (utf8DecodeFuel fuel rest1).map
            (fun cs => Char.ofNat ((b - 192) * 64 + (b1 - 128)) :: cs)
        else none
      | [] => none
    else if b < 240 then
      match rest with
      | b1 :: b2 :: rest2 =>
        if isUtf8Cont b1 && isUtf8Cont b2 then
          let cp := (b - 224) * 4096 + (b1 - 128) * 64 + (b2 - 128)
          if cp < 2048 then none
          else if 55296 ≤ cp && cp < 57344 then none
          else (utf8DecodeFuel fuel rest2).map (fun cs => Char.ofNat cp :: cs)
        else none
      | _ => none
    else if b < 245 then
      match rest with
      | b1 :: b2 :: b3 :: rest3 =>
        if isUtf8Cont b1 && isUtf8Cont b2 && isUtf8Cont b3 then
          let cp := (b - 240) * 262144 + (b1 - 128) * 4096 + (b2 - 128) * 64 + (b3 - 128)
          if cp < 65536 || 1114111 < cp then none
          else (utf8DecodeFuel fuel rest3).map (fun cs => Char.ofNat cp :: cs)
        else none
      | _ => none
    else none

/-- `String::from_utf8` on a byte vector, as an `Option`. -/
def utf8Decode (bs : List Nat) : Option String :=
  (utf8DecodeFuel bs.length bs).map (fun cs => String.mk cs)

/-- The outcomes of every external interaction `get_proc_and_focused_window_pid`
performs, in source order.  `Option String` fields are `none` on success and
`some e` when the call failed with error text `e`; property queries yield an
`Except` of the error text or the reply. -/
structure X11Env where
  connectErr : Option String
  screenOk : Bool
  activeWindowAtomErr : Option String
  stateAtomErr : Option String
  pidAtomErr : Option String
  activeWindowReply : Except String PropReply
  wmStateReply : Except String PropReply
  netWmPidReply : Except String PropReply
  wmClassReply : Except String PropReply
  procOpenErr : Option String

/-- Marker for each `xcb::get_property` round trip the focus resolver can
perform, used to record which queries a run actually issued. -/
inductive FocusStep where
  | getActiveWindow
  | getWmState
  | getNetWmPid
  | getWmClass
deriving DecidableEq, Repr

/-- `get_proc_and_focused_window_pid` from src/main.rs.  Returns the result
(the pid on success; the `openat::Dir` handle carries no information in the
model and is dropped), together with the list of `get_property` queries the
run performed and the list of diagnostics printed to stderr on non-fatal
paths (`eprintln!`).  `assert_eq!` failures and `panic!` calls surface as
`RunResult.panic`. -/
def get_proc_and_focused_window_pid (env : X11Env) :
    RunResult Nat × List FocusStep × List String :=
  match env.connectErr with
  | some error => (.err s!"Unable to open X11 connection: {error}.", [], [])
  | none =>
    if !env.screenOk then
      (.err "Unable to select current screen.", [], [])
    else
      match env.activeWindowAtomErr with
      | some error => (.err s!"Unable to retrieve _NET_ACTIVE_WINDOW atom: {error}.", [], [])
      | none =>
        match env.activeWindowReply with
        | .error error =>
            (.err s!"Unable to retrieve _NET_ACTIVE_WINDOW property from root: {error}.",
             [FocusStep.getActiveWindow], [])
        | .ok reply =>
          if reply.value_len == 0 then
            (.err "Unable to retrieve _NET_ACTIVE_WINDOW property from root.",
             [FocusStep.getActiveWindow], [])
          else if reply.value_len != 1 then
            (.panic "assertion failed: value_len == 1", [FocusStep.getActiveWindow], [])
          else if reply.bytes.length != 4 then
            (.panic "_NET_ACTIVE_WINDOW property is expected to be at least 4 bytes.",
             [FocusStep.getActiveWindow], [])
          else
            let window := readU32LE reply.bytes
            if window == 0 then
              (.err "No window is focused", [FocusStep.getActiveWindow], [])
            else
              match env.procOpenErr with
              | some error => (.err s!"Unable to open /proc: {error}", [FocusStep.getActiveWindow], [])
              | none =>
                match env.stateAtomErr with
                | some error =>
                    (.err s!"Unable to retrieve WM_STATE atom: {error}.",
                     [FocusStep.getActiveWindow], [])
                | none =>
                  let stateStep : RunResult (List String) :=
                    match env.wmStateReply with
                    | .error error =>
                        .ok [s!"Unable to retrieve WM_STATE from focused window {window}: {error}"]
                    | .ok sreply =>
                      if sreply.value_len == 0 then
                        .ok [s!"Unable to retrieve WM_STATE from focused window {window}."]
                      else if sreply.value_len != 1 then
                        .panic "assertion failed: value_len == 1"
                      else if sreply.bytes.length != 4 then
                        .panic "WM_STATE property is expected to be at least 4 bytes."
                      else
                        let state := readU32LE sreply.bytes
                        if state != 1 then
                          .err s!"Focused window {window} is not in normal (visible) state ({state} != 1); Ignoring."
                        else .ok []
                  match stateStep with
                  | .err msg => (.err msg, [FocusStep.getActiveWindow, FocusStep.getWmState], [])
                  | .panic msg => (.panic msg, [FocusStep.getActiveWindow, FocusStep.getWmState], [])
                  | .outOfFuel => (.outOfFuel, [FocusStep.getActiveWindow, FocusStep.getWmState], [])
                  | .ok logs =>
                    match env.pidAtomErr with
                    | some error =>
                        (.err s!"Unable to retrieve _NET_WM_PID: {error}.",
                         [FocusStep.getActiveWindow, FocusStep.getWmState], logs)
                    | none =>
                      match env.netWmPidReply with
                      | .error error =>
                          (.panic s!"Unable to retrieve _NET_WM_PID from focused window {window}: {error}",
                           [FocusStep.getActiveWindow, FocusStep.getWmState, FocusStep.getNetWmPid], logs)
                      | .ok preply =>
                        if preply.value_len == 0 then
                          let logs := logs ++
                            [s!"Unable to retrieve _NET_WM_PID from focused window {window}; trying WM_CLASS."]
                          match env.wmClassReply with
                          | .error error =>
                              (.panic s!"Unable to retrieve WM_CLASS from focused window {window}: {error}",
                               [FocusStep.getActiveWindow, FocusStep.getWmState,
                                FocusStep.getNetWmPid, FocusStep.getWmClass], logs)
                          | .ok creply =>
                            match utf8Decode (creply.bytes.takeWhile (fun c => c != 0)) with
                            | none =>
                                (.panic "Unable to decode WM_CLASS value",
                                 [FocusStep.getActiveWindow, FocusStep.getWmState,
                                  FocusStep.getNetWmPid, FocusStep.getWmClass], logs)
                            | some wmClassName =>
                                (.err s!"Unimplemented: Find processes named {wmClassName}",
                                 [FocusStep.getActiveWindow, FocusStep.getWmState,
                                  FocusStep.getNetWmPid, FocusStep.getWmClass], logs)
                        else if preply.value_len != 1 then
                          (.panic "assertion failed: value_len == 1",
                           [FocusStep.getActiveWindow, FocusStep.getWmState, FocusStep.getNetWmPid], logs)
                        else if preply.bytes.length != 4 then
                          (.panic "_NET_WM_PID property is expected to be at least 4 bytes",
                           [FocusStep.getActiveWindow, FocusStep.getWmState, FocusStep.getNetWmPid], logs)
                        else
                          (.ok (readU32LE preply.bytes),
                           [FocusStep.getActiveWindow, FocusStep.getWmState, FocusStep.getNetWmPid], logs)

/-- The tagged working directory value (`enum Cwd` in src/main.rs). -/
inductive Cwd where
  | Regular (cwd : String)
  | Priority (cwd : String)
deriving DecidableEq, Repr

/-- `Cwd::new`: tag the cwd `Priority` exactly when some entry of the priority
list equals the executable path (`priority_commands.iter().any(|elem| elem == exe)`,
with `Str` instantiated at `String` as `main` does). -/
def Cwd.new (cwd : String) (exe : String) (priority_commands : List String) : Cwd :=
  if priority_commands.any (fun elem => elem == exe) then Cwd.Priority cwd else Cwd.Regular cwd

/-- `impl AsRef<str> for Cwd`: the carried path, tag forgotten. -/
def Cwd.as_ref : Cwd → String
  | Cwd.Regular cwd => cwd
  | Cwd.Priority cwd => cwd

/-- `Cwd::exists_or_err`, with `Path::exists` supplied as the predicate `fs`. -/
def Cwd.exists_or_err (fs : String → Bool) (self : Cwd) : Except String Cwd :=
  let path := self.as_ref
  if fs path then Except.ok self else Except.error s!"{path} does not exist anymore."

/-- True exactly for the `Priority` variant. -/
def Cwd.isPriority : Cwd → Bool
  | Cwd.Priority _ => true
  | Cwd.Regular _ => false

/-- The three /proc reads `get_child_cwd` performs for one pid: the `exe` and
`cwd` symlink targets (the targets are modelled as `String`; Rust additionally
unwraps a UTF-8 check on them) and the raw contents of
`/proc/{pid}/task/{pid}/children` (`open_file` and `read_to_string` failures
are collapsed into the one error field). -/
structure ProcEntry where
  exe : Except String String
  cwd : Except String String
  children : Except String String

/-- Rust `str::trim_end` (on the whitespace the fixture data uses), written
on the character list so that it evaluates by kernel reduction. -/
def trimEndChars (l : List Char) : List Char := (l.reverse.dropWhile Char.isWhitespace).reverse

/-- Rust `str::trim_start`, written on the character list. -/
def trimStartChars (l : List Char) : List Char := l.dropWhile Char.isWhitespace

/-- Rust `str::split(sep)` for a single-character separator: splitting the
empty string yields one empty piece, and every separator occurrence opens a
new piece (so adjacent or trailing separators yield empty pieces). -/
def splitChar (sep : Char) : List Char → List (List Char)
  | [] => [[]]
  | c :: rest =>
    let r := splitChar sep rest
    if c == sep then [] :: r
    else
      match r with
      | h :: t => (c :: h) :: t
      | [] => [[c]]

/-- Decimal digit accumulator for `parseU32`; fails on any non-digit. -/
def parseDigitsAux : List Char → Nat → Option Nat
  | [], acc => some acc
  | c :: rest, acc => if c.isDigit then parseDigitsAux rest (acc * 10 + (c.toNat - 48)) else none

/-- `child.parse::<u32>()`: an optional leading `+`, then one or more decimal
digits, value below 2^32. -/
def parseU32 (s : String) : Option Nat :=
  let cs :=
    match s.data with
    | '+' :: rest => rest
    | cs => cs
  match cs with
  | [] => none
  | _ =>
    match parseDigitsAux cs 0 with
    | some n => if n < 4294967296 then some n else none
    | none => none

/-- Walking the lazy `filter_map` iterator of `get_child_cwd` up to its first
element: parse each token (`unwrap` on a malformed token panics), resolve the
pid, drop `Err` resolutions (`.ok()`), and stop at the first `Ok` child,
returning it together with the unconsumed tokens. -/
def firstOk (resolve : Nat → RunResult Cwd) : List String → RunResult (Option (Nat × Cwd × List String))
  | [] => .ok none
  | tok :: rest =>
    match parseU32 tok with
    | none => .panic s!"invalid digit found in string: {tok}"
    | some child_pid =>
      match resolve child_pid with
      | .ok cwd => .ok (some (child_pid, cwd, rest))
      | .err _ => firstOk resolve rest
      | .panic m => .panic m
      | .outOfFuel => .outOfFuel

/-- Walking the same iterator in search of the first `Ok` child whose `Cwd` is
tagged `Priority` (the `find` in the `Cwd::Regular` arm); stops at the first
such child, so later tokens are not parsed or resolved. -/
def findPriority (resolve : Nat → RunResult Cwd) : List String → RunResult (Option Cwd)
  | [] => .ok none
  | tok :: rest =>
    match parseU32 tok with
    | none => .panic s!"invalid digit found in string: {tok}"
    | some child_pid =>
      match resolve child_pid with
      | .ok (Cwd.Priority c) => .ok (some (Cwd.Priority c))
      | .ok (Cwd.Regular _) => findPriority resolve rest
      | .err _ => findPriority resolve rest
      | .panic m => .panic m
      | .outOfFuel => .outOfFuel

/-- The `if let Some((child_pid, child_cwd)) = children.next()` block of
`get_child_cwd`: `none` when no child resolves; otherwise the chosen child
`Cwd`.  After the first `Ok` child the code peeks for a second one (for the
multiple-children warning), which forces the iterator one `Ok` element
further even when the first child is already `Priority`; in the `Regular`
case the peeked element is then consumed by the `find`, so the combined
traversal is exactly `findPriority` over the remaining tokens. -/
def chooseChild (resolve : Nat → RunResult Cwd) (toks : List String) : RunResult (Option Cwd) :=
  match firstOk resolve toks with
  | .panic m => .panic m
  | .outOfFuel => .outOfFuel
  | .err m => .err m
  | .ok none => .ok none
  | .ok (some (_, child_cwd, rest)) =>
    match child_cwd with
    | Cwd.Regular _ =>
      match findPriority resolve rest with
      | .ok (some p) => .ok (some p)
      | .ok none => .ok (some child_cwd)
      | .panic m => .panic m
      | .outOfFuel => .outOfFuel
      | .err m => .err m
    | Cwd.Priority _ =>
      match firstOk resolve rest with
      | .ok _ => .ok (some child_cwd)
      | .panic m => .panic m
      | .outOfFuel => .outOfFuel
      | .err m => .err m

/-- Embed an `exists_or_err` outcome into a `RunResult`. -/
def ofExcept : Except String Cwd → RunResult Cwd
  | .ok c => .ok c
  | .error e => .err e

/-- `get_child_cwd` from src/main.rs, per node: read `exe` and `cwd` (each
failure is an early `Err` return), classify via `Cwd::new`, read the children
list (failure is an early `Err` return via `?` — it is NOT absorbed locally),
return own cwd (existence-checked) when the list is empty or no child
resolves, otherwise merge with the chosen child: a `Priority` parent beats a
`Regular` child if the parent path still exists (else fall back to the
child's own existence check, keeping the parent's error text); every other
combination returns the child, existence-asserted under
`cfg!(debug_assertions)` (`dbg`).  The Rust recursion is unbounded; `fuel`
bounds the modelled call stack. -/
def get_child_cwd (fs : String → Bool) (dbg : Bool) (table : Nat → ProcEntry)
    (priority_commands : List String) : Nat → Nat → RunResult Cwd
  | 0 => fun _ => .outOfFuel
  | fuel + 1 => fun pid =>
    match (table pid).exe with
    | .error error => .err s!"Unable to read /proc/{pid}/exe: {error}."
    | .ok exe =>
      match (table pid).cwd with
      | .error error => .err s!"Unable to read /proc/{pid}/cwd: {error}."
      | .ok cwdPath =>
        let cwd := Cwd.new cwdPath exe priority_commands
        match (table pid).children with
        | .error error => .err s!"Unable to open /proc/{pid}/task/{pid}/children: {error}."
        | .ok childrenRaw =>
          if childrenRaw.data.isEmpty then ofExcept (cwd.exists_or_err fs)
          else if dbg && !(childrenRaw.data == trimStartChars childrenRaw.data) then
            .panic "debug assertion failed: children == children.trim_start()"
          else
            match chooseChild (get_child_cwd fs dbg table priority_commands fuel)
                ((splitChar ' ' (trimEndChars childrenRaw.data)).map String.mk) with
            | .panic m => .panic m
            | .outOfFuel => .outOfFuel
            | .err m => .err m
            | .ok none => ofExcept (cwd.exists_or_err fs)
            | .ok (some child_cwd) =>
              match cwd, child_cwd with
              | Cwd.Priority _, Cwd.Regular _ =>
                match cwd.exists_or_err fs with
                | .ok c => .ok c
                | .error e =>
                  match child_cwd.exists_or_err fs with
                  | .ok c => .ok c
                  | .error _ => .err e
              | _, _ =>
                if dbg then
                  match child_cwd.exists_or_err fs with
                  | .ok c => .ok c
                  | .error _ => .panic "assertion failed: child_cwd.is_ok()"
                else .ok child_cwd

/-- A pid whose resolution exhausts every fuel bound: the source recursion,
which has no depth cap, does not terminate there. -/
def divergesAt (fs : String → Bool) (dbg : Bool) (table : Nat → ProcEntry)
    (priority_commands : List String) (pid : Nat) : Prop :=
  ∀ fuel, get_child_cwd fs dbg table priority_commands fuel pid = RunResult.outOfFuel

/-- Token-level precondition used to state C5: every token parses as a pid
whose resolution settles (returns `Ok` or `Err`, rather than panicking or
exceeding the fuel). -/
def cleanTok (resolve : Nat → RunResult Cwd) (tok : String) : Bool :=
  match parseU32 tok with
  | some child_pid => (resolve child_pid).settled
  | none => false

/-- Modelled from the spec: the list of successfully resolved child results,
in enumeration order (the spec's "surviving resolved children"), used to
compare the code's lazy child choice against the spec's description. -/
def resolvedChildren (resolve : Nat → RunResult Cwd) (toks : List String) : List Cwd :=
  toks.filterMap (fun tok =>
    match parseU32 tok with
    | some child_pid =>
      match resolve child_pid with
      | RunResult.ok c => some c
      | _ => none
    | none => none)

/-! Concrete process-table and filesystem fixtures used by the claim
theorems below.  Each table maps every pid outside the fixture to a
process whose three reads all fail (the pid does not exist). -/

/-- A /proc entry for a pid that does not exist: all three reads fail. -/
def noProc : ProcEntry :=
  ⟨Except.error "No such process", Except.error "No such process", Except.error "No such process"⟩

/-- Filesystem for the fixtures: the handful of directories they mention exist. -/
def fsFix : String → Bool := fun p =>
  p == "/root" || p == "/tmp" || p == "/opt" || p == "/home" || p == "/x"
    || p == "/c1" || p == "/c2" || p == "/c3"

/-- Tree P(1) → [C1(2) regular /tmp, C2(3) priority /opt], children listed "2 3". -/
def table5a : Nat → ProcEntry := fun pid =>
  if pid == 1 then ⟨Except.ok "/usr/bin/x", Except.ok "/root", Except.ok "2 3 "⟩
  else if pid == 2 then ⟨Except.ok "/usr/bin/e2", Except.ok "/tmp", Except.ok ""⟩
  else if pid == 3 then ⟨Except.ok "p", Except.ok "/opt", Except.ok ""⟩
  else noProc

/-- Same tree with the children listed in the opposite order "3 2". -/
def table5b : Nat → ProcEntry := fun pid =>
  if pid == 1 then ⟨Except.ok "/usr/bin/x", Except.ok "/root", Except.ok "3 2 "⟩
  else if pid == 2 then ⟨Except.ok "/usr/bin/e2", Except.ok "/tmp", Except.ok ""⟩
  else if pid == 3 then ⟨Except.ok "p", Except.ok "/opt", Except.ok ""⟩
  else noProc

/-- Tree P(1, priority, cwd /home) → C(2, regular, cwd /tmp), C childless. -/
def table6 : Nat → ProcEntry := fun pid =>
  if pid == 1 then ⟨Except.ok "p", Except.ok "/home", Except.ok "2 "⟩
  else if pid == 2 then ⟨Except.ok "/usr/bin/e2", Except.ok "/tmp", Except.ok ""⟩
  else noProc

/-- Filesystem in which the priority directory `/home` has vanished. -/
def fsNoHome : String → Bool := fun p => p == "/tmp" || p == "/x" || p == "/opt"

/-- Tree P(1, regular, cwd /home) → C(2, regular, cwd /tmp), C childless. -/
def table7 : Nat → ProcEntry := fun pid =>
  if pid == 1 then ⟨Except.ok "/bin/a", Except.ok "/home", Except.ok "2 "⟩
  else if pid == 2 then ⟨Except.ok "/bin/b", Except.ok "/tmp", Except.ok ""⟩
  else noProc

/-- A single process whose children list cannot be read. -/
def table2 : Nat → ProcEntry := fun pid =>
  if pid == 1 then ⟨Except.ok "/bin/sh", Except.ok "/home", Except.error "EACCES"⟩
  else noProc

/-- P(1) → [2, 3] where reading 2's children fails and 3 is a readable leaf. -/
def table2b : Nat → ProcEntry := fun pid =>
  if pid == 1 then ⟨Except.ok "/bin/a", Except.ok "/home", Except.ok "2 3 "⟩
  else if pid == 2 then ⟨Except.ok "/bin/b", Except.ok "/x", Except.error "EACCES"⟩
  else if pid == 3 then ⟨Except.ok "/bin/c", Except.ok "/opt", Except.ok ""⟩
  else noProc

/-- A process whose children list holds a token that is not a pid. -/
def table4 : Nat → ProcEntry := fun pid =>
  if pid == 1 then ⟨Except.ok "/bin/sh", Except.ok "/home", Except.ok "abc "⟩
  else noProc

/-- A children listing naming the process itself: pid 1 lists child 1. -/
def tableSelfLoop : Nat → ProcEntry := fun pid =>
  if pid == 1 then ⟨Except.ok "/bin/a", Except.ok "/c1", Except.ok "1 "⟩
  else noProc

/-- A two-cycle in the children listings: 1 lists 2 and 2 lists 1. -/
def tableTwoCycle : Nat → ProcEntry := fun pid =>
  if pid == 1 then ⟨Except.ok "/bin/a", Except.ok "/c1", Except.ok "2 "⟩
  else if pid == 2 then ⟨Except.ok "/bin/b", Except.ok "/c2", Except.ok "1 "⟩
  else noProc

/-- An acyclic chain 1 → 2 → 3 of depth three. -/
def tableChain : Nat → ProcEntry := fun pid =>
  if pid == 1 then ⟨Except.ok "/bin/a", Except.ok "/c1", Except.ok "2 "⟩
  else if pid == 2 then ⟨Except.ok "/bin/b", Except.ok "/c2", Except.ok "3 "⟩
  else if pid == 3 then ⟨Except.ok "/bin/c", Except.ok "/c3", Except.ok ""⟩
  else noProc

/-- A tiny child-resolution function used to witness the C5 choice theorem. -/
def resolveW : Nat → RunResult Cwd := fun p =>
  if p == 2 then RunResult.ok (Cwd.Regular "/tmp")
  else if p == 3 then RunResult.ok (Cwd.Priority "/opt")
  else RunResult.err "No such process"

/-! Helper lemmas shared by the claim theorems. -/

/-- `exists_or_err` only returns `Ok` when the carried path exists. -/
theorem exists_or_err_ok {fs : String → Bool} {x y : Cwd}
    (h : Cwd.exists_or_err fs x = Except.ok y) : fs y.as_ref = true := by
  simp only [Cwd.exists_or_err] at h
  split at h
  · cases h; assumption
  · simp at h

/-- `ofExcept` returns `ok` only for an `Except.ok` argument. -/
theorem ofExcept_ok {ex : Except String Cwd} {c : Cwd}
    (h : ofExcept ex = RunResult.ok c) : ex = Except.ok c := by
  cases ex
  · simp [ofExcept] at h
  · simp [ofExcept] at h; simp [h]

/-- The first `Ok` child returned by the iterator really is a resolution
result of some pid. -/
theorem firstOk_ok_some (resolve : Nat → RunResult Cwd) :
    ∀ (toks : List String) (p : Nat) (c : Cwd) (rest : List String),
      firstOk resolve toks = RunResult.ok (some (p, c, rest)) → resolve p = RunResult.ok c := by
  intro toks
  induction toks with
  | nil => intro p c rest h; simp [firstOk] at h
  | cons tok toks' ih =>
    intro p c rest h
    unfold firstOk at h
    split at h
    · simp at h
    · split at h
      · cases h; assumption
      · exact ih p c rest h
      · simp at h
      · simp at h

/-- A `Priority` child found by the `find` traversal really is a resolution
result of some pid. -/
theorem findPriority_ok_some (resolve : Nat → RunResult Cwd) :
    ∀ (toks : List String) (c : Cwd),
      findPriority resolve toks = RunResult.ok (some c) → ∃ p, resolve p = RunResult.ok c := by
  intro toks
  induction toks with
  | nil => intro c h; simp [findPriority] at h
  | cons tok toks' ih =>
    intro c h
    unfold findPriority at h
    split at h
    · simp at h
    · rename_i child_pid hp
      split at h
      · rename_i s hr
        cases h
        exact ⟨child_pid, hr⟩
      · exact ih c h
      · exact ih c h
      · simp at h
      · simp at h

/-- The chosen child `Cwd` is a resolution result of some pid. -/
theorem chooseChild_ok_some {resolve : Nat → RunResult Cwd} {toks : List String} {c : Cwd}
    (h : chooseChild resolve toks = RunResult.ok (some c)) : ∃ p, resolve p = RunResult.ok c := by
  unfold chooseChild at h
  split at h
  · simp at h
  · simp at h
  · simp at h
  · simp at h
  · rename_i a child_cwd rest hfo
    split at h
    · split at h
      · cases h; exact findPriority_ok_some resolve rest _ (by assumption)
      · cases h; exact ⟨a, firstOk_ok_some resolve toks a _ rest hfo⟩
      · simp at h
      · simp at h
      · simp at h
    · split at h
      · cases h; exact ⟨a, firstOk_ok_some resolve toks a _ rest hfo⟩
      · simp at h
      · simp at h
      · simp at h

/-- Existence invariant of the resolver: in this embedding the filesystem is
fixed for the duration of a run, so every `Ok` result of `get_child_cwd`
carries a path that exists — each `Ok` was either existence-checked on the
spot or handed up from a child that was. -/
theorem get_child_cwd_ok_exists (fs : String → Bool) (dbg : Bool) (table : Nat → ProcEntry)
    (prio : List String) :
    ∀ (fuel pid : Nat) (c : Cwd),
      get_child_cwd fs dbg table prio fuel pid = RunResult.ok c → fs c.as_ref = true := by
  intro fuel
  induction fuel with
  | zero => intro pid c h; simp [get_child_cwd] at h
  | succ fuel ih =>
    intro pid c h
    simp only [get_child_cwd] at h
    split at h
    · simp at h
    · split at h
      · simp at h
      · split at h
        · simp at h
        · split at h
          · exact exists_or_err_ok (ofExcept_ok h)
          · split at h
            · simp at h
            · split at h
              · simp at h
              · simp at h
              · simp at h
              · exact exists_or_err_ok (ofExcept_ok h)
              · rename_i child_cwd hchoose
                split at h
                · split at h
                  · cases h; exact exists_or_err_ok (by assumption)
                  · split at h
                    · cases h; exact exists_or_err_ok (by assumption)
                    · simp at h
                · split at h
                  · split at h
                    · cases h; exact exists_or_err_ok (by assumption)
                    · simp at h
                  · cases h
                    obtain ⟨p, hp⟩ := chooseChild_ok_some hchoose
                    exact ih p _ hp

/-- When every token parses and settles, the first-`Ok` traversal cannot
panic or exhaust fuel: it returns either no child along with an empty
resolved-children list, or the head of the resolved-children list together
with the still-clean remaining tokens. -/
theorem firstOk_clean_shape (resolve : Nat → RunResult Cwd) :
    ∀ toks : List String, (∀ tok ∈ toks, cleanTok resolve tok = true) →
      (firstOk resolve toks = RunResult.ok none ∧ resolvedChildren resolve toks = [])
      ∨ ∃ p c rest, firstOk resolve toks = RunResult.ok (some (p, c, rest))
          ∧ resolvedChildren resolve toks = c :: resolvedChildren resolve rest
          ∧ (∀ tok ∈ rest, cleanTok resolve tok = true) := by
  intro toks
  induction toks with
  | nil => intro _; left; exact ⟨rfl, rfl⟩
  | cons tok toks' ih =>
    intro hclean
    have htok : cleanTok resolve tok = true := hclean tok (by simp)
    have htoks' : ∀ t ∈ toks', cleanTok resolve t = true := fun t ht => hclean t (by simp [ht])
    unfold cleanTok at htok
    cases hp : parseU32 tok with
    | none => simp [hp] at htok
    | some child_pid =>
      simp only [hp] at htok
      cases hr : resolve child_pid with
      | ok c =>
        right
        refine ⟨child_pid, c, toks', by simp [firstOk, hp, hr], ?_, htoks'⟩
        simp [resolvedChildren, hp, hr]
      | err m =>
        have h1 : firstOk resolve (tok :: toks') = firstOk resolve toks' := by
          simp [firstOk, hp, hr]
        have h2 : resolvedChildren resolve (tok :: toks') = resolvedChildren resolve toks' := by
          simp [resolvedChildren, hp, hr]
        rcases ih htoks' with ⟨ha, hb⟩ | ⟨p, c, rest, ha, hb, hc⟩
        · left; exact ⟨h1.trans ha, h2.trans hb⟩
        · right; exact ⟨p, c, rest, h1.trans ha, h2.trans hb, hc⟩
      | panic m => simp [hr, RunResult.settled] at htok
      | outOfFuel => simp [hr, RunResult.settled] at htok

/-- When every token parses and settles, the `find`-for-`Priority` traversal
returns exactly the first `Priority` element of the resolved-children list. -/
theorem findPriority_clean (resolve : Nat → RunResult Cwd) :
    ∀ toks : List String, (∀ tok ∈ toks, cleanTok resolve tok = true) →
      findPriority resolve toks
        = RunResult.ok ((resolvedChildren resolve toks).find? Cwd.isPriority) := by
  intro toks
  induction toks with
  | nil => intro _; simp [findPriority, resolvedChildren]
  | cons tok toks' ih =>
    intro hclean
    have htok : cleanTok resolve tok = true := hclean tok (by simp)
    have htoks' : ∀ t ∈ toks', cleanTok resolve t = true := fun t ht => hclean t (by simp [ht])
    unfold cleanTok at htok
    cases hp : parseU32 tok with
    | none => simp [hp] at htok
    | some child_pid =>
      simp only [hp] at htok
      cases hr : resolve child_pid with
      | ok c =>
        cases c with
        | Priority s =>
          simp [findPriority, hp, hr, resolvedChildren, Cwd.isPriority]
        | Regular s =>
          rw [show findPriority resolve (tok :: toks') = findPriority resolve toks' from by
            simp [findPriority, hp, hr]]
          rw [show resolvedChildren resolve (tok :: toks')
              = Cwd.Regular s :: resolvedChildren resolve toks' from by
            simp [resolvedChildren, hp, hr]]
          rw [List.find?_cons_of_neg _ (by simp [Cwd.isPriority])]
          exact ih htoks'
      | err m =>
        rw [show findPriority resolve (tok :: toks') = findPriority resolve toks' from by
          simp [findPriority, hp, hr]]
        rw [show resolvedChildren resolve (tok :: toks') = resolvedChildren resolve toks' from by
          simp [resolvedChildren, hp, hr]]
        exact ih htoks'
      | panic m => simp [hr, RunResult.settled] at htok
      | outOfFuel => simp [hr, RunResult.settled] at htok

/-! Claim theorems. -/

/-- C1 counterexample: with cwd `/home/a`, exe `/usr/bin/bash` and priority
list `["bash"]`, `Cwd::new` classifies the process as `Regular`, not
`Priority`: the comparison is exact string equality of the full executable
path against the list entry, and `"bash" ≠ "/usr/bin/bash"`. -/
theorem c1_basename_example_counterexample :
    Cwd.new "/home/a" "/usr/bin/bash" ["bash"] = Cwd.Regular "/home/a"
    ∧ Cwd.new "/home/a" "/usr/bin/bash" ["bash"] ≠ Cwd.Priority "/home/a" :=
  ⟨by decide, by decide⟩

/-- C1 (amended): the tag is `Priority` exactly when the executable path is,
by exact string equality, an entry of the priority list; hence exe
`/usr/bin/bash` with priority list `["bash"]` classifies as
`Regular("/home/a")`, while the list `["/usr/bin/bash"]` yields
`Priority("/home/a")`. -/
theorem c1_priority_iff_exact_member :
    (∀ (cwd exe : String) (prio : List String),
        Cwd.new cwd exe prio = Cwd.Priority cwd ↔ exe ∈ prio)
    ∧ Cwd.new "/home/a" "/usr/bin/bash" ["/usr/bin/bash"] = Cwd.Priority "/home/a"
    ∧ Cwd.new "/home/a" "/usr/bin/bash" ["bash"] = Cwd.Regular "/home/a" := by
  refine ⟨?_, by decide, by decide⟩
  intro cwd exe prio
  unfold Cwd.new
  split
  · rename_i h
    simp only [List.any_eq_true, beq_iff_eq] at h
    obtain ⟨x, hx, rfl⟩ := h
    simp [hx]
  · rename_i h
    simp only [List.any_eq_true, beq_iff_eq] at h
    push_neg at h
    constructor
    · intro hcontra; cases hcontra
    · intro hmem; exact absurd rfl (h exe hmem)

/-- C2 counterexample: for a process whose exe and cwd reads succeed but
whose children list cannot be opened, `get_child_cwd` returns the error to
its caller (the `?` operator in the source) instead of falling back to the
node's own Cwd. -/
theorem c2_children_failure_counterexample :
    get_child_cwd fsFix false table2 [] 1 1
        = RunResult.err "Unable to open /proc/1/task/1/children: EACCES."
    ∧ get_child_cwd fsFix false table2 [] 1 1 ≠ RunResult.ok (Cwd.Regular "/home") :=
  ⟨by decide, by decide⟩

/-- C2 (amended): a failure to open or read the children list of a readable
process is propagated as an error result of that call; recovery happens one
level up, where the recursive caller drops the failed child from
consideration — concretely, child 2 (unreadable children list) is skipped
while its sibling 3 still resolves. -/
theorem c2_children_failure_propagates :
    (∀ (fs : String → Bool) (dbg : Bool) (table : Nat → ProcEntry) (prio : List String)
        (fuel pid : Nat) (exe cwdPath e : String),
        table pid = ⟨Except.ok exe, Except.ok cwdPath, Except.error e⟩ →
        get_child_cwd fs dbg table prio (fuel + 1) pid
          = RunResult.err s!"Unable to open /proc/{pid}/task/{pid}/children: {e}.")
    ∧ get_child_cwd fsFix false table2b [] 3 1 = RunResult.ok (Cwd.Regular "/opt") := by
  refine ⟨?_, by decide⟩
  intro fs dbg table prio fuel pid exe cwdPath e htable
  simp [get_child_cwd, htable]

/-- Closed instance of the C2 amended theorem at a concrete fixture. -/
theorem c2_children_failure_propagates_witness :
    get_child_cwd fsFix false table2b [] 1 2
      = RunResult.err "Unable to open /proc/2/task/2/children: EACCES." := by
  have h := c2_children_failure_propagates.1 fsFix false table2b [] 0 2 "/bin/b" "/x" "EACCES" rfl
  rw [h]; decide

/-- C3 counterexample: a `_NET_ACTIVE_WINDOW` reply declaring 4 values (as a
format-8 reply of 4 bytes would) hits `assert_eq!(reply.value_len(), 1)` and
aborts the process, instead of producing the typed protocol error the claim
requires for every value count other than 1. -/
theorem c3_oversized_reply_counterexample :
    (get_proc_and_focused_window_pid
      ⟨none, true, none, none, none, Except.ok ⟨4, [0, 0, 0, 0]⟩, Except.ok ⟨1, [1, 0, 0, 0]⟩,
       Except.ok ⟨1, [42, 0, 0, 0]⟩, Except.ok ⟨0, []⟩, none⟩).1
      = RunResult.panic "assertion failed: value_len == 1" := by decide

/-- C3 (amended): for each of the three fixed-width properties, only a
zero-count reply is handled without aborting — a typed error for
`_NET_ACTIVE_WINDOW`, log-and-continue for `WM_STATE`, and the `WM_CLASS`
fallback for `_NET_WM_PID` — while a declared value count of two or more, or
a count of one with a byte length other than 4, terminates the process
abnormally via an assertion failure. -/
theorem c3_reply_size_handling :
    (∀ (bs : List Nat) (st pidr cr : Except String PropReply),
        (get_proc_and_focused_window_pid
          ⟨none, true, none, none, none, Except.ok ⟨0, bs⟩, st, pidr, cr, none⟩).1
          = RunResult.err "Unable to retrieve _NET_ACTIVE_WINDOW property from root.")
    ∧ (∀ (n : Nat) (bs : List Nat) (st pidr cr : Except String PropReply),
        2 ≤ n →
        (get_proc_and_focused_window_pid
          ⟨none, true, none, none, none, Except.ok ⟨n, bs⟩, st, pidr, cr, none⟩).1
          = RunResult.panic "assertion failed: value_len == 1")
    ∧ (∀ (bs : List Nat) (st pidr cr : Except String PropReply),
        bs.length ≠ 4 →
        (get_proc_and_focused_window_pid
          ⟨none, true, none, none, none, Except.ok ⟨1, bs⟩, st, pidr, cr, none⟩).1
          = RunResult.panic "_NET_ACTIVE_WINDOW property is expected to be at least 4 bytes.")
    ∧ (∀ (awbytes sbytes pbytes : List Nat) (w pidv : Nat) (cr : Except String PropReply),
        awbytes.length = 4 → readU32LE awbytes = w → w ≠ 0 →
        pbytes.length = 4 → readU32LE pbytes = pidv →
        get_proc_and_focused_window_pid
          ⟨none, true, none, none, none, Except.ok ⟨1, awbytes⟩, Except.ok ⟨0, sbytes⟩,
           Except.ok ⟨1, pbytes⟩, cr, none⟩
          = (RunResult.ok pidv,
             [FocusStep.getActiveWindow, FocusStep.getWmState, FocusStep.getNetWmPid],
             [s!"Unable to retrieve WM_STATE from focused window {w}."]))
    ∧ (∀ (awbytes sbytes : List Nat) (w n : Nat) (pidr cr : Except String PropReply),
        awbytes.length = 4 → readU32LE awbytes = w → w ≠ 0 →
        2 ≤ n →
        (get_proc_and_focused_window_pid
          ⟨none, true, none, none, none, Except.ok ⟨1, awbytes⟩, Except.ok ⟨n, sbytes⟩,
           pidr, cr, none⟩).1
          = RunResult.panic "assertion failed: value_len == 1")
    ∧ (∀ (awbytes sbytes : List Nat) (w : Nat) (pidr cr : Except String PropReply),
        awbytes.length = 4 → readU32LE awbytes = w → w ≠ 0 →
        sbytes.length ≠ 4 →
        (get_proc_and_focused_window_pid
          ⟨none, true, none, none, none, Except.ok ⟨1, awbytes⟩, Except.ok ⟨1, sbytes⟩,
           pidr, cr, none⟩).1
          = RunResult.panic "WM_STATE property is expected to be at least 4 bytes.")
    ∧ (∀ (awbytes pbytes cbytes : List Nat) (w m : Nat) (cls : String),
        awbytes.length = 4 → readU32LE awbytes = w → w ≠ 0 →
        utf8Decode (cbytes.takeWhile (fun c => c != 0)) = some cls →
        get_proc_and_focused_window_pid
          ⟨none, true, none, none, none, Except.ok ⟨1, awbytes⟩, Except.ok ⟨1, [1, 0, 0, 0]⟩,
           Except.ok ⟨0, pbytes⟩, Except.ok ⟨m, cbytes⟩, none⟩
          = (RunResult.err s!"Unimplemented: Find processes named {cls}",
             [FocusStep.getActiveWindow, FocusStep.getWmState, FocusStep.getNetWmPid,
              FocusStep.getWmClass],
             [s!"Unable to retrieve _NET_WM_PID from focused window {w}; trying WM_CLASS."]))
    ∧ (∀ (awbytes pbytes : List Nat) (w n : Nat) (cr : Except String PropReply),
        awbytes.length = 4 → readU32LE awbytes = w → w ≠ 0 →
        2 ≤ n →
        (get_proc_and_focused_window_pid
          ⟨none, true, none, none, none, Except.ok ⟨1, awbytes⟩, Except.ok ⟨1, [1, 0, 0, 0]⟩,
           Except.ok ⟨n, pbytes⟩, cr, none⟩).1
          = RunResult.panic "assertion failed: value_len == 1")
    ∧ (∀ (awbytes pbytes : List Nat) (w : Nat) (cr : Except String PropReply),
        awbytes.length = 4 → readU32LE awbytes = w → w ≠ 0 →
        pbytes.length ≠ 4 →
        (get_proc_and_focused_window_pid
          ⟨none, true, none, none, none, Except.ok ⟨1, awbytes⟩, Except.ok ⟨1, [1, 0, 0, 0]⟩,
           Except.ok ⟨1, pbytes⟩, cr, none⟩).1
          = RunResult.panic "_NET_WM_PID property is expected to be at least 4 bytes") := by
  have hst : readU32LE [1, 0, 0, 0] = 1 := by decide
  refine ⟨?_, ?_, ?_, ?_, ?_, ?_, ?_, ?_, ?_⟩
  · intro bs st pidr cr
    simp [get_proc_and_focused_window_pid]
  · intro n bs st pidr cr hn
    have h0 : (n == 0) = false := by rw [beq_eq_false_iff_ne]; omega
    have h1 : (n != 1) = true := by rw [bne_iff_ne]; omega
    simp [get_proc_and_focused_window_pid, h0, h1]
  · intro bs st pidr cr hb
    have h4 : (bs.length != 4) = true := by rw [bne_iff_ne]; exact hb
    simp [get_proc_and_focused_window_pid, h4]
  · intro awbytes sbytes pbytes w pidv cr hal hw hw0 hpl hp
    have h4 : (awbytes.length != 4) = false := by rw [bne_eq_false_iff_eq]; exact hal
    have h0 : (w == 0) = false := by rw [beq_eq_false_iff_ne]; exact hw0
    have hp4 : (pbytes.length != 4) = false := by rw [bne_eq_false_iff_eq]; exact hpl
    simp [get_proc_and_focused_window_pid, h4, hw, h0, hp4, hp]
  · intro awbytes sbytes w n pidr cr hal hw hw0 hn
    have h4 : (awbytes.length != 4) = false := by rw [bne_eq_false_iff_eq]; exact hal
    have h0 : (w == 0) = false := by rw [beq_eq_false_iff_ne]; exact hw0
    have hn0 : (n == 0) = false := by rw [beq_eq_false_iff_ne]; omega
    have hn1 : (n != 1) = true := by rw [bne_iff_ne]; omega
    simp [get_proc_and_focused_window_pid, h4, hw, h0, hn0, hn1]
  · intro awbytes sbytes w pidr cr hal hw hw0 hsl
    have h4 : (awbytes.length != 4) = false := by rw [bne_eq_false_iff_eq]; exact hal
    have h0 : (w == 0) = false := by rw [beq_eq_false_iff_ne]; exact hw0
    have hs4 : (sbytes.length != 4) = true := by rw [bne_iff_ne]; exact hsl
    simp [get_proc_and_focused_window_pid, h4, hw, h0, hs4]
  · intro awbytes pbytes cbytes w m cls hal hw hw0 hcls
    have h4 : (awbytes.length != 4) = false := by rw [bne_eq_false_iff_eq]; exact hal
    have h0 : (w == 0) = false := by rw [beq_eq_false_iff_ne]; exact hw0
    simp [get_proc_and_focused_window_pid, h4, hw, h0, hst, hcls]
  · intro awbytes pbytes w n cr hal hw hw0 hn
    have h4 : (awbytes.length != 4) = false := by rw [bne_eq_false_iff_eq]; exact hal
    have h0 : (w == 0) = false := by rw [beq_eq_false_iff_ne]; exact hw0
    have hn0 : (n == 0) = false := by rw [beq_eq_false_iff_ne]; omega
    have hn1 : (n != 1) = true := by rw [bne_iff_ne]; omega
    simp [get_proc_and_focused_window_pid, h4, hw, h0, hst, hn0, hn1]
  · intro awbytes pbytes w cr hal hw hw0 hpl
    have h4 : (awbytes.length != 4) = false := by rw [bne_eq_false_iff_eq]; exact hal
    have h0 : (w == 0) = false := by rw [beq_eq_false_iff_ne]; exact hw0
    have hp4 : (pbytes.length != 4) = true := by rw [bne_iff_ne]; exact hpl
    simp [get_proc_and_focused_window_pid, h4, hw, h0, hst, hp4]

/-- Closed instances of the C3 amended theorem, one per property and
behaviour: `_NET_ACTIVE_WINDOW` oversized and short replies abort; a
zero-count `WM_STATE` reply logs and continues to the pid; oversized and
short `WM_STATE` replies abort; a zero-count `_NET_WM_PID` reply takes the
`WM_CLASS` fallback; oversized and short `_NET_WM_PID` replies abort. -/
theorem c3_reply_size_handling_witness :
    (get_proc_and_focused_window_pid
      ⟨none, true, none, none, none, Except.ok ⟨2, [0, 0, 0, 0, 0, 0, 0, 0]⟩,
       Except.ok ⟨1, [1, 0, 0, 0]⟩, Except.ok ⟨1, [42, 0, 0, 0]⟩, Except.ok ⟨0, []⟩, none⟩).1
      = RunResult.panic "assertion failed: value_len == 1"
    ∧ (get_proc_and_focused_window_pid
      ⟨none, true, none, none, none, Except.ok ⟨1, [1, 2, 3]⟩,
       Except.ok ⟨1, [1, 0, 0, 0]⟩, Except.ok ⟨1, [42, 0, 0, 0]⟩, Except.ok ⟨0, []⟩, none⟩).1
      = RunResult.panic "_NET_ACTIVE_WINDOW property is expected to be at least 4 bytes."
    ∧ get_proc_and_focused_window_pid
      ⟨none, true, none, none, none, Except.ok ⟨1, [8, 0, 0, 0]⟩, Except.ok ⟨0, []⟩,
       Except.ok ⟨1, [13, 0, 0, 0]⟩, Except.ok ⟨0, []⟩, none⟩
      = (RunResult.ok 13,
         [FocusStep.getActiveWindow, FocusStep.getWmState, FocusStep.getNetWmPid],
         ["Unable to retrieve WM_STATE from focused window 8."])
    ∧ (get_proc_and_focused_window_pid
      ⟨none, true, none, none, none, Except.ok ⟨1, [8, 0, 0, 0]⟩,
       Except.ok ⟨3, [0, 0, 0, 0, 0, 0, 0, 0, 0, 0, 0, 0]⟩,
       Except.ok ⟨1, [42, 0, 0, 0]⟩, Except.ok ⟨0, []⟩, none⟩).1
      = RunResult.panic "assertion failed: value_len == 1"
    ∧ (get_proc_and_focused_window_pid
      ⟨none, true, none, none, none, Except.ok ⟨1, [8, 0, 0, 0]⟩, Except.ok ⟨1, [1, 2]⟩,
       Except.ok ⟨1, [42, 0, 0, 0]⟩, Except.ok ⟨0, []⟩, none⟩).1
      = RunResult.panic "WM_STATE property is expected to be at least 4 bytes."
    ∧ get_proc_and_focused_window_pid
      ⟨none, true, none, none, none, Except.ok ⟨1, [8, 0, 0, 0]⟩, Except.ok ⟨1, [1, 0, 0, 0]⟩,
       Except.ok ⟨0, []⟩, Except.ok ⟨4, [102, 111, 111, 0]⟩, none⟩
      = (RunResult.err "Unimplemented: Find processes named foo",
         [FocusStep.getActiveWindow, FocusStep.getWmState, FocusStep.getNetWmPid,
          FocusStep.getWmClass],
         ["Unable to retrieve _NET_WM_PID from focused window 8; trying WM_CLASS."])
    ∧ (get_proc_and_focused_window_pid
      ⟨none, true, none, none, none, Except.ok ⟨1, [8, 0, 0, 0]⟩, Except.ok ⟨1, [1, 0, 0, 0]⟩,
       Except.ok ⟨2, [0, 0, 0, 0, 0, 0, 0, 0]⟩, Except.ok ⟨0, []⟩, none⟩).1
      = RunResult.panic "assertion failed: value_len == 1"
    ∧ (get_proc_and_focused_window_pid
      ⟨none, true, none, none, none, Except.ok ⟨1, [8, 0, 0, 0]⟩, Except.ok ⟨1, [1, 0, 0, 0]⟩,
       Except.ok ⟨1, [1, 2, 3]⟩, Except.ok ⟨0, []⟩, none⟩).1
      = RunResult.panic "_NET_WM_PID property is expected to be at least 4 bytes" := by
  obtain ⟨-, hb, hc, hd, he, hf, hg, hh, hi⟩ := c3_reply_size_handling
  refine ⟨?_, ?_, ?_, ?_, ?_, ?_, ?_, ?_⟩
  · exact hb 2 [0, 0, 0, 0, 0, 0, 0, 0] _ _ _ (by decide)
  · exact hc [1, 2, 3] _ _ _ (by decide)
  · have h := hd [8, 0, 0, 0] [] [13, 0, 0, 0] 8 13 (Except.ok ⟨0, []⟩)
      (by decide) (by decide) (by decide) (by decide) (by decide)
    rw [h]; decide
  · exact he [8, 0, 0, 0] [0, 0, 0, 0, 0, 0, 0, 0, 0, 0, 0, 0] 8 3 _ _
      (by decide) (by decide) (by decide) (by decide)
  · exact hf [8, 0, 0, 0] [1, 2] 8 _ _ (by decide) (by decide) (by decide) (by decide)
  · have h := hg [8, 0, 0, 0] [] [102, 111, 111, 0] 8 4 "foo"
      (by decide) (by decide) (by decide) (by decide)
    rw [h]; decide
  · exact hh [8, 0, 0, 0] [0, 0, 0, 0, 0, 0, 0, 0] 8 2 _
      (by decide) (by decide) (by decide) (by decide)
  · exact hi [8, 0, 0, 0] [1, 2, 3] 8 _ (by decide) (by decide) (by decide) (by decide)

/-- C4 counterexample: two failure paths that abort rather than returning a
typed error — an error reply to the `_NET_WM_PID` query (the source calls
`panic!` in `unwrap_or_else`), and a children-list token that is not a pid
(`child.parse().unwrap()`). -/
theorem c4_panic_paths_counterexample :
    (get_proc_and_focused_window_pid
      ⟨none, true, none, none, none, Except.ok ⟨1, [7, 0, 0, 0]⟩, Except.ok ⟨1, [1, 0, 0, 0]⟩,
       Except.error "connection broken", Except.ok ⟨0, []⟩, none⟩).1
      = RunResult.panic "Unable to retrieve _NET_WM_PID from focused window 7: connection broken"
    ∧ get_child_cwd fsFix false table4 [] 2 1
      = RunResult.panic "invalid digit found in string: abc" :=
  ⟨by decide, by decide⟩

/-- C4 (amended): the core does not surface every failure as a typed error —
an error reply to the `_NET_WM_PID` query aborts the process, and so does a
malformed (non-numeric) entry in a children list, an error reply to the
`WM_CLASS` query taken on the pid fallback path, and a `WM_CLASS` value that
does not decode as UTF-8. -/
theorem c4_panic_paths :
    (∀ (awbytes : List Nat) (w : Nat) (stE e : String) (cr : Except String PropReply),
        awbytes.length = 4 → readU32LE awbytes = w → w ≠ 0 →
        (get_proc_and_focused_window_pid
          ⟨none, true, none, none, none, Except.ok ⟨1, awbytes⟩, Except.error stE,
           Except.error e, cr, none⟩).1
          = RunResult.panic s!"Unable to retrieve _NET_WM_PID from focused window {w}: {e}")
    ∧ (∀ (fs : String → Bool) (table : Nat → ProcEntry) (prio : List String)
        (fuel pid : Nat) (exe cwdPath childrenRaw tok : String) (rest : List String),
        table pid = ⟨Except.ok exe, Except.ok cwdPath, Except.ok childrenRaw⟩ →
        childrenRaw.data.isEmpty = false →
        (splitChar ' ' (trimEndChars childrenRaw.data)).map String.mk = tok :: rest →
        parseU32 tok = none →
        get_child_cwd fs false table prio (fuel + 1) pid
          = RunResult.panic s!"invalid digit found in string: {tok}")
    ∧ (∀ (awbytes pbytes : List Nat) (w : Nat) (stE e : String),
        awbytes.length = 4 → readU32LE awbytes = w → w ≠ 0 →
        (get_proc_and_focused_window_pid
          ⟨none, true, none, none, none, Except.ok ⟨1, awbytes⟩, Except.error stE,
           Except.ok ⟨0, pbytes⟩, Except.error e, none⟩).1
          = RunResult.panic s!"Unable to retrieve WM_CLASS from focused window {w}: {e}")
    ∧ (∀ (awbytes pbytes cbytes : List Nat) (w m : Nat) (stE : String),
        awbytes.length = 4 → readU32LE awbytes = w → w ≠ 0 →
        utf8Decode (cbytes.takeWhile (fun c => c != 0)) = none →
        (get_proc_and_focused_window_pid
          ⟨none, true, none, none, none, Except.ok ⟨1, awbytes⟩, Except.error stE,
           Except.ok ⟨0, pbytes⟩, Except.ok ⟨m, cbytes⟩, none⟩).1
          = RunResult.panic "Unable to decode WM_CLASS value") := by
  refine ⟨?_, ?_, ?_, ?_⟩
  · intro awbytes w stE e cr hlen hw hw0
    have h4 : (awbytes.length != 4) = false := by rw [bne_eq_false_iff_eq]; exact hlen
    have h0 : (w == 0) = false := by rw [beq_eq_false_iff_ne]; exact hw0
    simp [get_proc_and_focused_window_pid, h4, hw, h0]
  · intro fs table prio fuel pid exe cwdPath childrenRaw tok rest htable hne htoks hparse
    simp [get_child_cwd, htable, hne, htoks, chooseChild, firstOk, hparse]
  · intro awbytes pbytes w stE e hlen hw hw0
    have h4 : (awbytes.length != 4) = false := by rw [bne_eq_false_iff_eq]; exact hlen
    have h0 : (w == 0) = false := by rw [beq_eq_false_iff_ne]; exact hw0
    simp [get_proc_and_focused_window_pid, h4, hw, h0]
  · intro awbytes pbytes cbytes w m stE hlen hw hw0 hcls
    have h4 : (awbytes.length != 4) = false := by rw [bne_eq_false_iff_eq]; exact hlen
    have h0 : (w == 0) = false := by rw [beq_eq_false_iff_ne]; exact hw0
    simp [get_proc_and_focused_window_pid, h4, hw, h0, hcls]

/-- Closed instances of the C4 amended theorem: a `_NET_WM_PID` query error,
a malformed children token, a `WM_CLASS` query error, and an invalid
`WM_CLASS` byte sequence (0xFF) each abort. -/
theorem c4_panic_paths_witness :
    (get_proc_and_focused_window_pid
      ⟨none, true, none, none, none, Except.ok ⟨1, [9, 0, 0, 0]⟩, Except.error "gone",
       Except.error "io error", Except.ok ⟨0, []⟩, none⟩).1
      = RunResult.panic "Unable to retrieve _NET_WM_PID from focused window 9: io error"
    ∧ get_child_cwd fsFix false table4 [] 1 1
      = RunResult.panic "invalid digit found in string: abc"
    ∧ (get_proc_and_focused_window_pid
      ⟨none, true, none, none, none, Except.ok ⟨1, [9, 0, 0, 0]⟩, Except.error "gone",
       Except.ok ⟨0, []⟩, Except.error "io", none⟩).1
      = RunResult.panic "Unable to retrieve WM_CLASS from focused window 9: io"
    ∧ (get_proc_and_focused_window_pid
      ⟨none, true, none, none, none, Except.ok ⟨1, [9, 0, 0, 0]⟩, Except.error "gone",
       Except.ok ⟨0, []⟩, Except.ok ⟨1, [255]⟩, none⟩).1
      = RunResult.panic "Unable to decode WM_CLASS value" := by
  obtain ⟨h1, h2, h3, h4⟩ := c4_panic_paths
  refine ⟨?_, ?_, ?_, ?_⟩
  · have h := h1 [9, 0, 0, 0] 9 "gone" "io error" (Except.ok ⟨0, []⟩)
      (by decide) (by decide) (by decide)
    rw [h]; decide
  · have h := h2 fsFix table4 [] 0 1 "/bin/sh" "/home" "abc " "abc" []
      rfl (by decide) (by decide) (by decide)
    rw [h]; decide
  · have h := h3 [9, 0, 0, 0] [] 9 "gone" "io" (by decide) (by decide) (by decide)
    rw [h]; decide
  · exact h4 [9, 0, 0, 0] [] [255] 9 1 "gone" (by decide) (by decide) (by decide) (by decide)

/-- C5: whenever some successfully resolved child is tagged `Priority`, the
first such result (in enumeration order) is the chosen child Cwd; and for the
tree P → [C1 = Regular("/tmp"), C2 = Priority("/opt")] the resolved Cwd at P
is `Priority("/opt")` under either children order. -/
theorem c5_first_priority_child_preferred :
    (∀ (resolve : Nat → RunResult Cwd) (toks : List String) (c : Cwd),
        (∀ tok ∈ toks, cleanTok resolve tok = true) →
        (resolvedChildren resolve toks).find? Cwd.isPriority = some c →
        chooseChild resolve toks = RunResult.ok (some c))
    ∧ (∀ dbg : Bool,
        get_child_cwd fsFix dbg table5a ["p"] 3 1 = RunResult.ok (Cwd.Priority "/opt")
        ∧ get_child_cwd fsFix dbg table5b ["p"] 3 1 = RunResult.ok (Cwd.Priority "/opt")) := by
  refine ⟨?_, by decide⟩
  intro resolve toks c hclean hfind
  rcases firstOk_clean_shape resolve toks hclean with ⟨h1, h2⟩ | ⟨p, c0, rest, h1, h2, hcleanrest⟩
  · rw [h2] at hfind; simp at hfind
  · rw [h2] at hfind
    unfold chooseChild
    rw [h1]
    cases hc0 : Cwd.isPriority c0 with
    | true =>
      rw [List.find?_cons_of_pos _ hc0] at hfind
      cases hfind
      cases c with
      | Regular s => simp [Cwd.isPriority] at hc0
      | Priority s =>
        rcases firstOk_clean_shape resolve rest hcleanrest with ⟨hr, _⟩ | ⟨p', c', rest', hr, _, _⟩
        · simp [hr]
        · simp [hr]
    | false =>
      rw [List.find?_cons_of_neg _ (by simp [hc0])] at hfind
      cases c0 with
      | Priority s => simp [Cwd.isPriority] at hc0
      | Regular s =>
        have hfp := findPriority_clean resolve rest hcleanrest
        simp [hfp, hfind]

/-- Closed instance of the C5 choice theorem: a `Regular` first child is
displaced by the later `Priority` sibling. -/
theorem c5_first_priority_child_preferred_witness :
    chooseChild resolveW ["2", "3"] = RunResult.ok (some (Cwd.Priority "/opt")) :=
  c5_first_priority_child_preferred.1 resolveW ["2", "3"] (Cwd.Priority "/opt")
    (by decide) (by decide)

/-- C6: when this node's Cwd is `Priority` and the chosen child result is
`Regular`, the node's own Cwd is returned if its path still exists, and the
child's path is returned otherwise (the child's own existence check succeeds
because every `Ok` result carries an existing path in this embedding); the
concrete tree P(Priority "/home") → C(Regular "/tmp") with `/home` existing
resolves to `Priority("/home")`. -/
theorem c6_priority_parent_merge :
    (∀ (fs : String → Bool) (dbg : Bool) (table : Nat → ProcEntry) (prio : List String)
        (fuel pid : Nat) (exe cwdPath childrenRaw cpath : String),
        table pid = ⟨Except.ok exe, Except.ok cwdPath, Except.ok childrenRaw⟩ →
        prio.any (fun elem => elem == exe) = true →
        childrenRaw.data.isEmpty = false →
        trimStartChars childrenRaw.data = childrenRaw.data →
        chooseChild (get_child_cwd fs dbg table prio fuel)
            ((splitChar ' ' (trimEndChars childrenRaw.data)).map String.mk)
          = RunResult.ok (some (Cwd.Regular cpath)) →
        get_child_cwd fs dbg table prio (fuel + 1) pid
          = RunResult.ok (if fs cwdPath then Cwd.Priority cwdPath else Cwd.Regular cpath))
    ∧ (∀ dbg : Bool, get_child_cwd fsFix dbg table6 ["p"] 2 1 = RunResult.ok (Cwd.Priority "/home")) := by
  refine ⟨?_, by decide⟩
  intro fs dbg table prio fuel pid exe cwdPath childrenRaw cpath htable hpri hne htrim hchoose
  obtain ⟨p, hp⟩ := chooseChild_ok_some hchoose
  have hcp := get_child_cwd_ok_exists fs dbg table prio fuel p _ hp
  simp only [Cwd.as_ref] at hcp
  simp only [get_child_cwd, htable, hne, htrim, hchoose, Cwd.new, hpri, if_true,
    Bool.false_eq_true, if_false, beq_self_eq_true, Bool.not_true, Bool.and_false]
  by_cases hfs : fs cwdPath
  · simp [Cwd.exists_or_err, Cwd.as_ref, hfs]
  · simp [Cwd.exists_or_err, Cwd.as_ref, hfs, hcp]

/-- Closed instance of the C6 merge theorem at the fixture where the
priority directory `/home` has vanished: the child's path wins despite the
tag mismatch. -/
theorem c6_priority_parent_merge_witness :
    get_child_cwd fsNoHome false table6 ["p"] 2 1 = RunResult.ok (Cwd.Regular "/tmp") := by
  have h := c6_priority_parent_merge.1 fsNoHome false table6 ["p"] 1 1 "p" "/home" "2 " "/tmp"
    rfl (by decide) (by decide) (by decide) (by decide)
  rw [h]; decide

/-- C7: when both this node's Cwd and the chosen child result are tagged
`Regular`, the child's Cwd is returned (deepest plain descendant wins); for
the tree P(Regular "/home") → C(Regular "/tmp"), C childless, the resolved
Cwd is `Regular("/tmp")`. -/
theorem c7_regular_regular_merge :
    (∀ (fs : String → Bool) (dbg : Bool) (table : Nat → ProcEntry) (prio : List String)
        (fuel pid : Nat) (exe cwdPath childrenRaw cpath : String),
        table pid = ⟨Except.ok exe, Except.ok cwdPath, Except.ok childrenRaw⟩ →
        prio.any (fun elem => elem == exe) = false →
        childrenRaw.data.isEmpty = false →
        trimStartChars childrenRaw.data = childrenRaw.data →
        chooseChild (get_child_cwd fs dbg table prio fuel)
            ((splitChar ' ' (trimEndChars childrenRaw.data)).map String.mk)
          = RunResult.ok (some (Cwd.Regular cpath)) →
        get_child_cwd fs dbg table prio (fuel + 1) pid = RunResult.ok (Cwd.Regular cpath))
    ∧ (∀ dbg : Bool, get_child_cwd fsFix dbg table7 [] 2 1 = RunResult.ok (Cwd.Regular "/tmp")) := by
  refine ⟨?_, by decide⟩
  intro fs dbg table prio fuel pid exe cwdPath childrenRaw cpath htable hpri hne htrim hchoose
  obtain ⟨p, hp⟩ := chooseChild_ok_some hchoose
  have hcp := get_child_cwd_ok_exists fs dbg table prio fuel p _ hp
  simp only [Cwd.as_ref] at hcp
  simp only [get_child_cwd, htable, hne, htrim, hchoose, Cwd.new, hpri,
    Bool.false_eq_true, if_false, beq_self_eq_true, Bool.not_true, Bool.and_false]
  cases dbg
  · simp
  · simp [Cwd.exists_or_err, Cwd.as_ref, hcp]

/-- Closed instance of the C7 merge theorem at the concrete fixture. -/
theorem c7_regular_regular_merge_witness :
    get_child_cwd fsFix true table7 [] 2 1 = RunResult.ok (Cwd.Regular "/tmp") := by
  have h := c7_regular_regular_merge.1 fsFix true table7 [] 1 1 "/bin/a" "/home" "2 " "/tmp"
    rfl (by decide) (by decide) (by decide) (by decide)
  exact h

/-- C8 counterexample: the recursion of `get_child_cwd` has no depth cap.
On a process table whose children listing names the process itself,
resolution exhausts every fuel bound — i.e. the source recursion, which the
fuel models, never returns, rather than terminating as a total function. -/
theorem c8_no_depth_cap_counterexample :
    divergesAt fsFix false tableSelfLoop [] 1 := by
  intro fuel
  induction fuel with
  | zero => rfl
  | succ fuel ih =>
    have h1 : parseU32 "1" = some 1 := by decide
    have hcc : chooseChild (get_child_cwd fsFix false tableSelfLoop [] fuel) ["1"]
        = RunResult.outOfFuel := by
      simp [chooseChild, firstOk, h1, ih]
    have htoks : (splitChar ' ' (trimEndChars "1 ".data)).map String.mk = ["1"] := by decide
    have hemp : ("1 ".data.isEmpty) = false := by decide
    have htab : tableSelfLoop 1 = ⟨Except.ok "/bin/a", Except.ok "/c1", Except.ok "1 "⟩ := rfl
    simp [get_child_cwd, htab, hemp, htoks, hcc]

/-- C8 (amended): there is no explicit cap on descent levels; termination
relies on the process table's children listings being acyclic and of finite
depth.  On a two-cycle resolution exceeds every stack bound, while on an
acyclic chain it terminates once the modelled stack covers the depth. -/
theorem c8_unbounded_descent :
    divergesAt fsFix false tableTwoCycle [] 1
    ∧ get_child_cwd fsFix false tableChain [] 4 1 = RunResult.ok (Cwd.Regular "/c3") := by
  constructor
  · have key : ∀ fuel, get_child_cwd fsFix false tableTwoCycle [] fuel 1 = RunResult.outOfFuel
        ∧ get_child_cwd fsFix false tableTwoCycle [] fuel 2 = RunResult.outOfFuel := by
      intro fuel
      induction fuel with
      | zero => exact ⟨rfl, rfl⟩
      | succ fuel ih =>
        have h1 : parseU32 "1" = some 1 := by decide
        have h2 : parseU32 "2" = some 2 := by decide
        have htoks1 : (splitChar ' ' (trimEndChars "2 ".data)).map String.mk = ["2"] := by decide
        have htoks2 : (splitChar ' ' (trimEndChars "1 ".data)).map String.mk = ["1"] := by decide
        have hempA : ("2 ".data.isEmpty) = false := by decide
        have hempB : ("1 ".data.isEmpty) = false := by decide
        constructor
        · have hcc : chooseChild (get_child_cwd fsFix false tableTwoCycle [] fuel) ["2"]
              = RunResult.outOfFuel := by simp [chooseChild, firstOk, h2, ih.2]
          have htab : tableTwoCycle 1 = ⟨Except.ok "/bin/a", Except.ok "/c1", Except.ok "2 "⟩ := rfl
          simp [get_child_cwd, htab, hempA, htoks1, hcc]
        · have hcc : chooseChild (get_child_cwd fsFix false tableTwoCycle [] fuel) ["1"]
              = RunResult.outOfFuel := by simp [chooseChild, firstOk, h1, ih.1]
          have htab : tableTwoCycle 2 = ⟨Except.ok "/bin/b", Except.ok "/c2", Except.ok "1 "⟩ := rfl
          simp [get_child_cwd, htab, hempB, htoks2, hcc]
    intro fuel
    exact (key fuel).1
  · decide

/-- C9: a present, well-formed `WM_STATE` reply whose value differs from
Normal (1) makes the resolver return the state error.  The `_NET_WM_PID`
lookup is never performed: the pid and class replies stay universally
quantified (the result does not depend on them) and the trace of issued
queries ends at `WM_STATE`, so `getNetWmPid` is not among them. -/
theorem c9_abnormal_state_short_circuits
    (awbytes stbytes : List Nat) (w s : Nat)
    (pidReply classReply : Except String PropReply)
    (hal : awbytes.length = 4) (hw : readU32LE awbytes = w) (hw0 : w ≠ 0)
    (hsl : stbytes.length = 4) (hs : readU32LE stbytes = s) (hs1 : s ≠ 1) :
    get_proc_and_focused_window_pid
        ⟨none, true, none, none, none, Except.ok ⟨1, awbytes⟩, Except.ok ⟨1, stbytes⟩,
         pidReply, classReply, none⟩
      = (RunResult.err s!"Focused window {w} is not in normal (visible) state ({s} != 1); Ignoring.",
         [FocusStep.getActiveWindow, FocusStep.getWmState], [])
    ∧ FocusStep.getNetWmPid ∉ [FocusStep.getActiveWindow, FocusStep.getWmState] := by
  refine ⟨?_, by decide⟩
  have h4 : (awbytes.length != 4) = false := by rw [bne_eq_false_iff_eq]; exact hal
  have h0 : (w == 0) = false := by rw [beq_eq_false_iff_ne]; exact hw0
  have hs4 : (stbytes.length != 4) = false := by rw [bne_eq_false_iff_eq]; exact hsl
  have hsn : (s != 1) = true := by rw [bne_iff_ne]; exact hs1
  simp [get_proc_and_focused_window_pid, h4, hw, h0, hs4, hs, hsn]

/-- Closed instance of the C9 theorem: `WM_STATE` = Iconic (3). -/
theorem c9_abnormal_state_short_circuits_witness :
    get_proc_and_focused_window_pid
        ⟨none, true, none, none, none, Except.ok ⟨1, [5, 0, 0, 0]⟩, Except.ok ⟨1, [3, 0, 0, 0]⟩,
         Except.ok ⟨1, [42, 0, 0, 0]⟩, Except.ok ⟨0, []⟩, none⟩
      = (RunResult.err "Focused window 5 is not in normal (visible) state (3 != 1); Ignoring.",
         [FocusStep.getActiveWindow, FocusStep.getWmState], []) := by
  have h := (c9_abnormal_state_short_circuits [5, 0, 0, 0] [3, 0, 0, 0] 5 3
    (Except.ok ⟨1, [42, 0, 0, 0]⟩) (Except.ok ⟨0, []⟩)
    (by decide) (by decide) (by decide) (by decide) (by decide) (by decide)).1
  rw [h]; decide

/-- C10: an error reply to the `WM_STATE` query is treated like an absent
property — the resolver logs a diagnostic to stderr and proceeds to the
`_NET_WM_PID` lookup (which appears in the issued-query trace), returning
the pid rather than a state error or any fatal error. -/
theorem c10_wm_state_query_error_continues
    (awbytes pbytes : List Nat) (w pidv : Nat) (stErr : String)
    (classReply : Except String PropReply)
    (hal : awbytes.length = 4) (hw : readU32LE awbytes = w) (hw0 : w ≠ 0)
    (hpl : pbytes.length = 4) (hp : readU32LE pbytes = pidv) :
    get_proc_and_focused_window_pid
        ⟨none, true, none, none, none, Except.ok ⟨1, awbytes⟩, Except.error stErr,
         Except.ok ⟨1, pbytes⟩, classReply, none⟩
      = (RunResult.ok pidv,
         [FocusStep.getActiveWindow, FocusStep.getWmState, FocusStep.getNetWmPid],
         [s!"Unable to retrieve WM_STATE from focused window {w}: {stErr}"]) := by
  have h4 : (awbytes.length != 4) = false := by rw [bne_eq_false_iff_eq]; exact hal
  have h0 : (w == 0) = false := by rw [beq_eq_false_iff_ne]; exact hw0
  have hp4 : (pbytes.length != 4) = false := by rw [bne_eq_false_iff_eq]; exact hpl
  simp [get_proc_and_focused_window_pid, h4, hw, h0, hp4, hp]

/-- Closed instance of the C10 theorem. -/
theorem c10_wm_state_query_error_continues_witness :
    get_proc_and_focused_window_pid
        ⟨none, true, none, none, none, Except.ok ⟨1, [7, 0, 0, 0]⟩, Except.error "boom",
         Except.ok ⟨1, [42, 0, 0, 0]⟩, Except.ok ⟨0, []⟩, none⟩
      = (RunResult.ok 42,
         [FocusStep.getActiveWindow, FocusStep.getWmState, FocusStep.getNetWmPid],
         ["Unable to retrieve WM_STATE from focused window 7: boom"]) := by
  have h := c10_wm_state_query_error_continues [7, 0, 0, 0] [42, 0, 0, 0] 7 42 "boom"
    (Except.ok ⟨0, []⟩) (by decide) (by decide) (by decide) (by decide) (by decide)
  rw [h]; decide

end Rcwd
